import Mathlib

/-!
Verification of the account-session and cross-account-mismatch detection
subsystem of the picsart-dropbox-plugin repository.

The TypeScript sources are shallowly embedded as pure Lean functions:
every network call (Dropbox identity probe, folder listing, space usage,
token refresh, health check) becomes an explicit outcome parameter, and
the mutable browser state (localStorage, the zustand store, the router
location) becomes explicit state records threaded through the functions.
-/

namespace PicsartDropbox

/-- Boolean test that `p` occurs at the start of `s` (on character lists). -/
def listStartsWith : List Char → List Char → Bool
  | [], _ => true
  | _ :: _, [] => false
  | p :: ps, c :: cs => p == c && listStartsWith ps cs

/-- Boolean test that `pat` occurs somewhere inside `s`, modelling
JavaScript `String.prototype.includes`. -/
def listContainsSub (pat : List Char) : List Char → Bool
  | [] => listStartsWith pat []
  | c :: cs => listStartsWith pat (c :: cs) || listContainsSub pat cs

/-- JavaScript `hay.includes(needle)`. -/
def strIncludes (hay needle : String) : Bool :=
  listContainsSub needle.toList hay.toList

/-- JavaScript truthiness of a nullable string: `null` and `""` are falsy. -/
def jsTruthy : Option String → Bool
  | none => false
  | some s => s ≠ ""

/-- JavaScript `a || b` on nullable strings: returns `b` whenever `a` is falsy. -/
def jsOr (a b : Option String) : Option String :=
  if jsTruthy a then a else b

/-! ## Server middleware (src/server/src/middleware/auth.ts, `ensureValidToken`)

The Dropbox `usersGetCurrentAccount` probe and the OAuth refresh call are
abstracted into environment functions; the middleware itself is embedded
as a pure decision function that also records which tokens were probed and
how many refresh calls were made. -/

/-- Outcome of probing an access token with `usersGetCurrentAccount`. -/
inductive ProbeOutcome
  | ok (accountId : String)
  | err
  deriving DecidableEq

/-- Outcome of one call of `refreshAccessTokenIfNeeded`: success carries the
new token pair, failure carries the thrown error message. -/
inductive RefreshOutcome
  | ok (accessToken : String) (refreshToken : String)
  | err (message : String)
  deriving DecidableEq

/-- Server-side environment of one request through `ensureValidToken`:
the identity probe keyed by access token, the refresh token stored for the
claimed user (`userService.getUserSession(userId)?.refreshToken`), and the
token-endpoint refresh call keyed by refresh token. -/
structure ServerEnv where
  probe : String → ProbeOutcome
  storedRefreshToken : Option String
  refresh : String → RefreshOutcome

/-- The two request headers `ensureValidToken` reads. -/
structure AuthHeaders where
  accessToken : Option String
  userId : Option String
  deriving DecidableEq

/-- Structured JSON error body of a middleware rejection.  A `shouldReauth`
of `false` models a body in which the field is absent. -/
structure ErrorBody where
  error : String
  shouldReauth : Bool
  reason : Option String
  deriving DecidableEq

/-- Decision of the middleware: reject with a status and body (the handler
is not invoked), or proceed to the handler with the request fields
`req.currentAccountId` / `req.accessToken` set, and possibly an
`X-New-Access-Token` response header. -/
inductive MwDecision
  | reject (status : Nat) (body : ErrorBody)
  | proceed (currentAccountId : String) (accessToken : String)
      (newTokenHeader : Option String)
  deriving DecidableEq

/-- Result of one middleware run, with the trace of tokens passed to the
identity probe and the number of refresh calls made. -/
structure MwResult where
  decision : MwDecision
  probedTokens : List String
  refreshCalls : Nat
  deriving DecidableEq

/-- The error-message classification of `ensureValidToken`'s refresh
failure handler (`invalid_grant` / `refresh_token` / `expired` /
`invalid_token` substrings mean the refresh token itself is expired). -/
def isRefreshTokenExpiredMsg (msg : String) : Bool :=
  strIncludes msg "invalid_grant" || strIncludes msg "refresh_token" ||
  strIncludes msg "expired" || strIncludes msg "invalid_token"

/-- Embedding of `ensureValidToken` (src/server/src/middleware/auth.ts).
Mirrors the source: missing token or user id reject with 401; a successful
probe whose account id differs from the claimed `X-User-ID` rejects with
403 `shouldReauth`; a failed probe attempts exactly one refresh with the
stored refresh token, proceeding with `req.currentAccountId = userId` and
the `X-New-Access-Token` header on success, and rejecting with 401 on
failure (reason `refresh_token_expired` when the message matches). -/
def ensureValidToken (env : ServerEnv) (req : AuthHeaders) : MwResult :=
  match req.accessToken with
  | none => ⟨.reject 401 ⟨"No access token provided", false, none⟩, [], 0⟩
  | some accessToken =>
    match req.userId with
    | none => ⟨.reject 401 ⟨"No user ID provided", false, none⟩, [], 0⟩
    | some userId =>
      match env.probe accessToken with
      | .ok currentAccountId =>
        if currentAccountId ≠ userId then
          ⟨.reject 403 ⟨"Account mismatch detected", true, none⟩, [accessToken], 0⟩
        else
          ⟨.proceed currentAccountId accessToken none, [accessToken], 0⟩
      | .err =>
        match env.storedRefreshToken with
        | none =>
          ⟨.reject 401 ⟨"Token expired and no refresh token available", true, none⟩,
            [accessToken], 0⟩
        | some rt =>
          match env.refresh rt with
          | .ok newAccess _newRefresh =>
            ⟨.proceed userId newAccess (some newAccess), [accessToken], 1⟩
          | .err msg =>
            if isRefreshTokenExpiredMsg msg then
              ⟨.reject 401 ⟨"Refresh token expired", true, some "refresh_token_expired"⟩,
                [accessToken], 1⟩
            else
              ⟨.reject 401 ⟨"Authentication failed", true, none⟩, [accessToken], 1⟩

/-! ## Client token expiry bookkeeping (authApi, src/unnamed/part_001) -/

/-- Embedding of `authApi.storeTokenWithExpiration` called at time `now`
(ms): the stored `token_expires_at` value is
`Date.now() + (expiresIn - 300) * 1000`, i.e. the provider lifetime minus
a 5-minute buffer. -/
def storeTokenWithExpiration (now expiresIn : Int) : Int :=
  now + (expiresIn - 300) * 1000

/-- Embedding of `authApi.isTokenExpiredOrExpiring` at time `now` (ms):
with no stored `token_expires_at` the token is assumed valid; otherwise
the token counts as expiring when the stored expiry is at most
`now + 5 * 60 * 1000`. -/
def isTokenExpiredOrExpiring (tokenExpiresAt : Option Int) (now : Int) : Bool :=
  match tokenExpiresAt with
  | none => false
  | some e => decide (e ≤ now + 5 * 60 * 1000)

/-! ## Client initialization refresh retry loop
(`initializeFromStorage`, src/client/src/hooks/useAuth.ts)

The loop makes up to `maxAttempts = 3` calls of `authApi.refreshToken()`
raced against a 10 s timeout.  `authApi.refreshToken` resolves to `null`
on every server-reported failure (it catches its own errors), so only the
timeout race rejects; a rejection on the last attempt runs a health check
against `/api/auth/status` to distinguish an unreachable server (keep the
stored credentials in a limited state) from a reachable one (fall through
to `clearAuth`). -/

/-- Observable outcome of one client refresh attempt: the refresh API
resolved with a token, resolved with `null` (any server-reported failure,
e.g. an `invalid_grant` response), or the 10 s timeout race rejected. -/
inductive RefreshAttempt
  | success (accessToken : String)
  | nullResult
  | timeout
  deriving DecidableEq

/-- Final action of the initialization flow on the stored session. -/
inductive InitAction
  | restored (accessToken : String)
  | clearAuth
  | keepLimited
  deriving DecidableEq

/-- Result of the initialization retry loop: the action taken, the number
of refresh attempts actually made, and the backoff delays (ms) slept
between attempts. -/
structure InitResult where
  action : InitAction
  attemptsMade : Nat
  backoffsMs : List Nat
  deriving DecidableEq

/-- One pass of the `while (refreshAttempts < maxAttempts && !refreshResult)`
loop of `initializeFromStorage`.  `fuel` is the number of attempts still
allowed (starts at 3), `n` the 1-based number of the current attempt.
A `nullResult` retries without backoff (the backoff sits in the `catch`
branch only); a `timeout` on attempt 3 performs the health check: with the
server reachable the loop breaks to `clearAuth`, with it unreachable and
user info stored the function returns early keeping the credentials. -/
def initRefreshGo (attempts : Nat → RefreshAttempt)
    (serverReachable storedUserInfo : Bool) :
    Nat → Nat → List Nat → InitResult
  | 0, _n, backoffs => ⟨.clearAuth, 3, backoffs.reverse⟩
  | fuel + 1, n, backoffs =>
    match attempts n with
    | .success t =>
      if storedUserInfo ∧ t ≠ "" then ⟨.restored t, n, backoffs.reverse⟩
      else ⟨.clearAuth, n, backoffs.reverse⟩
    | .nullResult => initRefreshGo attempts serverReachable storedUserInfo fuel (n + 1) backoffs
    | .timeout =>
      if n = 3 then
        if serverReachable then ⟨.clearAuth, 3, backoffs.reverse⟩
        else if storedUserInfo then ⟨.keepLimited, 3, backoffs.reverse⟩
        else ⟨.clearAuth, 3, backoffs.reverse⟩
      else
        initRefreshGo attempts serverReachable storedUserInfo fuel (n + 1)
          (1000 * n :: backoffs)

/-- The expired-token branch of `initializeFromStorage`: run the retry
loop with `maxAttempts = 3` starting at attempt 1. -/
def initRefreshLoop (attempts : Nat → RefreshAttempt)
    (serverReachable storedUserInfo : Bool) : InitResult :=
  initRefreshGo attempts serverReachable storedUserInfo 3 1 []

/-! ## Grace-period orchestration
(`useAccountValidation.validateBeforeOperation`, appended to
src/client/src/hooks/useAuth.ts) -/

/-- The three operation types accepted by `validateBeforeOperation`. -/
inductive OperationType
  | STARTUP
  | ERROR_409
  | USER_OPERATION
  deriving DecidableEq

/-- The in-memory grace-period flags of the zustand store:
`recentlyReauthorized` and `lastReauthorizationTime` (ms, `0` is the
initial, falsy value). -/
structure GraceFlags where
  recentlyReauthorized : Bool
  lastReauthorizationTime : Int
  deriving DecidableEq

/-- The grace period duration: `5 * 60 * 1000` ms. -/
def GRACE_PERIOD : Int := 5 * 60 * 1000

/-- Client credentials as seen by the `useAccountValidation` hook:
the access token and the stored `userInfo.userId`. -/
structure HookCreds where
  accessToken : String
  userId : String
  deriving DecidableEq

/-- Outcome of the client-side Dropbox identity probe
(`usersGetCurrentAccount` from the browser). -/
inductive ClientProbe
  | ok (accountId : String) (email : String) (name : String)
  | err (message : String)
  deriving DecidableEq

/-- Embedding of the hook's `validateCurrentAccount`: with missing
credentials it fails without any network call; otherwise it probes the
token and compares the probed account id with the stored user id.
Returns `(isValid, probePerformed)`. -/
def hookValidateCurrentAccount (creds : Option HookCreds)
    (probe : String → ClientProbe) : Bool × Bool :=
  match creds with
  | none => (false, false)
  | some c =>
    match probe c.accessToken with
    | .ok accountId _ _ => (accountId = c.userId, true)
    | .err _ => (false, true)

/-- Result of `validateBeforeOperation`: the boolean handed to the caller,
whether a network probe was performed, and the updated grace flags. -/
structure ValidateBeforeOpResult where
  allowed : Bool
  probePerformed : Bool
  flags : GraceFlags
  deriving DecidableEq

/-- Embedding of `validateBeforeOperation`: for `USER_OPERATION` with the
grace flags marked (`recentlyReauthorized` and a truthy recorded time) and
strictly less than `GRACE_PERIOD` elapsed, it short-circuits to `true`
without a probe; past the grace period it clears `recentlyReauthorized`
and falls through to `validateCurrentAccount`.  `STARTUP` and `ERROR_409`
always run the real validation chain. -/
def validateBeforeOperation (op : OperationType) (flags : GraceFlags)
    (now : Int) (creds : Option HookCreds) (probe : String → ClientProbe) :
    ValidateBeforeOpResult :=
  if op = OperationType.USER_OPERATION ∧ flags.recentlyReauthorized = true ∧
      flags.lastReauthorizationTime ≠ 0 then
    if now - flags.lastReauthorizationTime < GRACE_PERIOD then
      ⟨true, false, flags⟩
    else
      let v := hookValidateCurrentAccount creds probe
      ⟨v.1, v.2, ⟨false, flags.lastReauthorizationTime⟩⟩
  else
    let v := hookValidateCurrentAccount creds probe
    ⟨v.1, v.2, flags⟩

/-! ## Account validation utilities (src/unnamed/part_003):
`validateCurrentAccount` and `validateSessionConsistency` -/

/-- The `ValidationResult` record of the client account-validation
utilities.  Optional fields model JSON fields that are simply absent. -/
structure ValidationResult where
  isValid : Bool
  reason : Option String := none
  error : Option String := none
  shouldShowBanner : Option Bool := none
  shouldReauth : Option Bool := none
  sessionMismatch : Option Bool := none
  accountId : Option String := none
  accountEmail : Option String := none
  accountName : Option String := none
  deriving DecidableEq

/-- The localStorage credentials the validators read:
`access_token` and `user_id`. -/
structure StoredCreds where
  accessToken : Option String
  userId : Option String
  deriving DecidableEq

/-- Embedding of `validateCurrentAccount` (src/unnamed/part_003): fails
fast on missing stored credentials, probes the token, and reports a
confirmed mismatch (`sessionMismatch`, `shouldShowBanner`, `shouldReauth`)
when the probed account id differs from the stored user id; a probe error
is reported as `Token validation failed` with `shouldReauth` only. -/
def validateCurrentAccount (ls : StoredCreds)
    (probe : String → ClientProbe) : ValidationResult :=
  match ls.accessToken, ls.userId with
  | some tok, some uid =>
    match probe tok with
    | .ok accountId email name =>
      if accountId ≠ uid then
        { isValid := false,
          reason := some "Account mismatch detected",
          error := some "Account mismatch detected",
          shouldShowBanner := some true,
          shouldReauth := some true,
          sessionMismatch := some true,
          accountId := some accountId,
          accountEmail := some email,
          accountName := some name }
      else
        { isValid := true,
          accountId := some accountId,
          accountEmail := some email,
          accountName := some name }
    | .err msg =>
      { isValid := false,
        reason := some "Token validation failed",
        error := some msg,
        shouldReauth := some true }
  | _, _ =>
    { isValid := false,
      reason := some "Missing stored credentials",
      error := some "Missing stored credentials" }

/-- Outcome of one functional Dropbox API probe (`filesListFolder` or
`usersGetSpaceUsage`): success, or a thrown error with its message. -/
inductive ApiCall
  | ok
  | err (message : String)
  deriving DecidableEq

/-- Embedding of `validateSessionConsistency` (src/unnamed/part_003):
after the identity check (`validateCurrentAccount`) passes, it exercises a
folder listing and then a space-usage call; any failure of either probe
yields an invalid, `sessionMismatch` verdict (the listing distinguishes a
`401` message only in the reported reason). -/
def validateSessionConsistency (ls : StoredCreds)
    (probe : String → ClientProbe)
    (listFolder : ApiCall) (spaceUsage : ApiCall) : ValidationResult :=
  match ls.accessToken, ls.userId with
  | some _tok, some _uid =>
    let basic := validateCurrentAccount ls probe
    if basic.isValid = false then basic
    else
      match listFolder with
      | .err msg =>
        if strIncludes msg "401" then
          { isValid := false,
            reason := some "Session mismatch detected via API test",
            error := some "API access failed - session mismatch",
            shouldShowBanner := some true,
            sessionMismatch := some true,
            accountId := basic.accountId,
            accountEmail := basic.accountEmail,
            accountName := basic.accountName }
        else
          { isValid := false,
            reason := some "API access failed",
            error := some "API calls failing - possible session mismatch",
            shouldShowBanner := some true,
            sessionMismatch := some true,
            accountId := basic.accountId,
            accountEmail := basic.accountEmail,
            accountName := basic.accountName }
      | .ok =>
        match spaceUsage with
        | .err _ =>
          { isValid := false,
            reason := some "Session mismatch detected via space usage test",
            error := some "Space usage API failed - session mismatch",
            shouldShowBanner := some true,
            sessionMismatch := some true,
            accountId := basic.accountId,
            accountEmail := basic.accountEmail,
            accountName := basic.accountName }
        | .ok =>
          { isValid := true,
            accountId := basic.accountId,
            accountEmail := basic.accountEmail,
            accountName := basic.accountName }
  | _, _ =>
    { isValid := false,
      reason := some "Missing credentials",
      error := some "Missing credentials" }

/-! ## Event-raising validators
(src/client/src/utils/immediateValidation.ts and
src/client/src/utils/comprehensiveAccountCheck.ts)

Dispatching a `window` `accountMismatch` CustomEvent is modelled as
appending its payload to the returned event list. -/

/-- Payload of a dispatched `accountMismatch` CustomEvent (the fields the
recovery path reads). `confirmed = none` models a payload in which the
`confirmed` field is absent. -/
structure MismatchEvent where
  accountEmail : String
  accountId : String
  error : String
  source : String
  confirmed : Option Bool := none
  deriving DecidableEq

/-- Grace-period values persisted in localStorage
(`recentlyReauthorized`, stored as the string `"true"`, and
`lastReauthorizationTime` in ms). -/
structure GraceLS where
  recentlyReauthorized : Option String
  lastReauthorizationTime : Option Int
  deriving DecidableEq

/-- Result of one run of `triggerImmediateAccountValidation`:
the resolved value (`none` models the bare `return`, i.e. `undefined`),
the dispatched events, and the possibly-cleared grace flags. -/
structure ImmediateValidationRun where
  ret : Option Bool
  events : List MismatchEvent
  grace : GraceLS
  deriving DecidableEq

/-- The body of `triggerImmediateAccountValidation` after the grace-period
gate: missing credentials dispatch a missing-credentials event and return
`undefined`; a probed mismatch dispatches a confirmed mismatch event; a
probe error of any kind (including network failures) lands in the `catch`
block, which dispatches an `accountMismatch` event with source
`immediate-validation-error` and no `confirmed` field. -/
def immediateCheckCore (grace : GraceLS) (tok uid : Option String)
    (probe : String → ClientProbe) : ImmediateValidationRun :=
  match tok, uid with
  | some tokv, some uidv =>
    match probe tokv with
    | .ok accountId email _name =>
      if accountId ≠ uidv then
        ⟨some false,
          [⟨email, accountId,
            "Account mismatch detected during immediate validation",
            "immediate-validation", some true⟩], grace⟩
      else ⟨some true, [], grace⟩
    | .err msg =>
      ⟨some false,
        [⟨"Validation failed", "unknown",
          (if msg = "" then "Immediate validation failed" else msg),
          "immediate-validation-error", none⟩], grace⟩
  | _, _ =>
    ⟨none,
      [⟨"Missing credentials", "unknown", "Missing authentication credentials",
        "immediate-validation", none⟩], grace⟩

/-- Embedding of `triggerImmediateAccountValidation`: unless
`ignoreGracePeriod` is set (the 409 and startup paths), an active grace
period short-circuits to `true` with no event; an expired one clears the
stored flags before validating. -/
def triggerImmediateAccountValidation (ignoreGracePeriod : Bool)
    (grace : GraceLS) (now : Int) (tok uid : Option String)
    (probe : String → ClientProbe) : ImmediateValidationRun :=
  if ignoreGracePeriod = false then
    match grace.recentlyReauthorized, grace.lastReauthorizationTime with
    | some flag, some t =>
      if flag = "true" then
        if now - t < GRACE_PERIOD then ⟨some true, [], grace⟩
        else immediateCheckCore ⟨none, none⟩ tok uid probe
      else immediateCheckCore grace tok uid probe
    | _, _ => immediateCheckCore grace tok uid probe
  else immediateCheckCore grace tok uid probe

/-- Result record of `performComprehensiveAccountCheck`.  The current
account triple is (id, email, name); the stored pair is (id, email). -/
structure ComprehensiveResult where
  isValid : Bool
  issues : List String
  currentAccount : Option (String × String × String) := none
  storedAccount : Option (String × String) := none
  deriving DecidableEq

/-- Embedding of `performComprehensiveAccountCheck`
(src/client/src/utils/comprehensiveAccountCheck.ts).  `storedEmail` is the
email parsed from the stored `user_info` (`some "unknown"` when the JSON
carries no email).  A failed `usersGetCurrentAccount` call of any kind
returns an invalid result whose issue records the fetch failure. -/
def performComprehensiveAccountCheck (tok uid storedEmail : Option String)
    (probe : String → ClientProbe) : ComprehensiveResult :=
  match tok, uid, storedEmail with
  | some tokv, some uidv, some email0 =>
    match probe tokv with
    | .err msg =>
      ⟨false, ["Account info fetch failed: " ++ msg], none, none⟩
    | .ok accountId email name =>
      if accountId ≠ uidv then
        ⟨false, ["Account ID mismatch detected"],
          some (accountId, email, name), some (uidv, email0)⟩
      else
        ⟨true, [], some (accountId, email, name), some (uidv, email0)⟩
  | t, u, i =>
    ⟨false,
      (if t.isNone then ["Missing access token"] else []) ++
      (if u.isNone then ["Missing stored user ID"] else []) ++
      (if i.isNone then ["Missing stored user info"] else []),
      none, none⟩

/-- JavaScript `list.join(sep)`. -/
def joinSep (sep : String) : List String → String
  | [] => ""
  | [x] => x
  | x :: y :: xs => x ++ sep ++ joinSep sep (y :: xs)

/-- Embedding of `triggerComprehensiveAccountCheck`: any invalid result —
including one produced by a failed (e.g. unreachable-provider) probe —
dispatches an `accountMismatch` event with source `comprehensive-check`
and `confirmed = true`. -/
def triggerComprehensiveAccountCheck (tok uid storedEmail : Option String)
    (probe : String → ClientProbe) : Bool × List MismatchEvent :=
  let result := performComprehensiveAccountCheck tok uid storedEmail probe
  if result.isValid = false then
    (false,
      [⟨(match result.currentAccount with
          | some (_, e, _) => e
          | none => "Unknown"),
        (match result.currentAccount with
          | some (i, _, _) => i
          | none => "Unknown"),
        joinSep "; " result.issues,
        "comprehensive-check", some true⟩])
  else (true, [])

/-! ## Passive fetch interception
(src/client/src/utils/accountSwitchDetection.ts)

The fetch interceptor keeps a module-level `consecutiveErrors` counter.
A response is modelled by its status and the parsed
`error.error_summary` of its body (`none` when the body is not parseable
in that shape). -/

/-- An observed HTTP response as seen by the fetch interceptor. -/
structure FetchResponse where
  status : Nat
  errorSummary : Option String := none
  deriving DecidableEq

/-- The `Response.ok` flag: status in [200, 300). -/
def FetchResponse.respOk (r : FetchResponse) : Bool :=
  decide (200 ≤ r.status) && decide (r.status < 300)

/-- Payload of a dispatched `accountSwitchDetected` CustomEvent. -/
structure SwitchEvent where
  source : String
  errorCount : Nat
  deriving DecidableEq

/-- One interception step: a 409 response whose body's `error_summary`
includes `path/not_found` increments the counter, dispatching an
`accountSwitchDetected` event and resetting the counter once it reaches
the threshold 2; any other 409 leaves the counter alone; any successful
response resets it to zero; other failures leave it alone. -/
def interceptResponse (counter : Nat) (r : FetchResponse) :
    Nat × List SwitchEvent :=
  if r.status = 409 then
    match r.errorSummary with
    | some summary =>
      if strIncludes summary "path/not_found" then
        let c := counter + 1
        if 2 ≤ c then (0, [⟨"fetch-interceptor", c⟩]) else (c, [])
      else (counter, [])
    | none => (counter, [])
  else if r.respOk then (0, [])
  else (counter, [])

/-- Run the interceptor over a sequence of responses, collecting all
dispatched events. -/
def runInterceptor (counter : Nat) : List FetchResponse → Nat × List SwitchEvent
  | [] => (counter, [])
  | r :: rs =>
    let step := interceptResponse counter r
    let rest := runInterceptor step.1 rs
    (rest.1, step.2 ++ rest.2)

/-- An ambiguous 4xx response: client-error status, but not the
cross-account signature (a 409 whose body summary includes
`path/not_found`). -/
def ambiguous4xx (r : FetchResponse) : Prop :=
  400 ≤ r.status ∧ r.status < 500 ∧
  ¬ (r.status = 409 ∧ ∃ s, r.errorSummary = some s ∧
      strIncludes s "path/not_found" = true)

/-! ## Recovery orchestration
(src/client/src/Layout.tsx `handleAccountMismatch` /
`handleFixAccountMismatch`, and `handleOAuthCallback` in
src/client/src/hooks/useAuth.ts)

The browser is modelled by the router location (`route`), the in-memory
zustand store, and localStorage; a `window.location.href` navigation is a
`pageReload` that reinitializes the store while localStorage persists. -/

/-- The `savedIntent` record of the store. -/
structure SavedIntent where
  route : Option String := none
  fileId : Option String := none
  action : Option String := none
  deriving DecidableEq

/-- The zustand store fields involved in mismatch recovery. -/
structure StoreState where
  savedIntent : Option SavedIntent := none
  directFileId : Option String := none
  selectedImage : Option String := none
  images : List String := []
  showAccountMismatchBanner : Bool := false
  accountMismatchInfo : Option (String × String × String) := none
  status : String := ""
  userInfoEmail : Option String := none
  recentlyReauthorized : Bool := false
  lastReauthorizationTime : Int := 0
  isAuthenticated : Bool := false
  deriving DecidableEq

/-- The localStorage keys involved in mismatch recovery. -/
structure RecoveryLS where
  accessToken : Option String := none
  refreshToken : Option String := none
  userId : Option String := none
  userInfo : Option String := none
  tokenExpiresAt : Option Int := none
  pendingFileId : Option String := none
  directFileIdOauth : Option String := none
  recentlyReauthorized : Option String := none
  lastReauthorizationTime : Option Int := none
  deriving DecidableEq

/-- The whole client: router location, in-memory store, localStorage. -/
structure ClientState where
  route : String
  store : StoreState
  ls : RecoveryLS
  deriving DecidableEq

/-- Payload of an `accountMismatch` event as read by the Layout listener. -/
structure MismatchPayload where
  accountEmail : Option String := none
  accountId : Option String := none
  error : Option String := none
  source : Option String := none
  deriving DecidableEq

/-- Characters of `s` up to (excluding) the next occurrence of `pat`. -/
def takeToPat (pat : List Char) : List Char → List Char
  | [] => []
  | c :: cs => if listStartsWith pat (c :: cs) then [] else c :: takeToPat pat cs

/-- JavaScript `s.split(pat)[1]`: the text between the first and second
occurrences of `pat`, or `none` when `pat` does not occur in `s`. -/
def splitSecond (pat : List Char) : List Char → Option (List Char)
  | [] => none
  | c :: cs =>
    if listStartsWith pat (c :: cs) then
      some (takeToPat pat ((c :: cs).drop pat.length))
    else splitSecond pat cs

/-- The Layout's file-id extraction from the route:
`pathname.includes('/process/') ? pathname.split('/process/')[1] : null`. -/
def processRouteFileId (route : String) : Option String :=
  match splitSecond "/process/".toList route.toList with
  | some cs => some (String.mk cs)
  | none => none

/-- `selectedImage && selectedImage.id !== 'unknown'`. -/
def hasActiveSelectedImage (st : StoreState) : Bool :=
  match st.selectedImage with
  | some id => id ≠ "unknown"
  | none => false

/-- JavaScript `a || d` where `d` is a plain string default. -/
def jsGetD (a : Option String) (d : String) : String :=
  if jsTruthy a then a.getD d else d

/-- Embedding of the Layout's `handleAccountMismatch` event listener: it
captures the Saved Intent from the current navigation/selection context
(route file id or `directFileId` or selected image), mirrors a truthy file
id into `pending_file_id` for the OAuth callback flow, clears the cached
provider data, records the mismatch info, and raises the blocking
account-mismatch banner.  There is no re-entrancy guard: every received
event runs the full body again. -/
def handleAccountMismatch (s : ClientState) (ev : MismatchPayload) : ClientState :=
  let currentRoute := s.route
  let currentFileId := jsOr s.store.directFileId (processRouteFileId s.route)
  let info : Option (String × String × String) :=
    some (jsGetD ev.accountEmail (jsGetD ev.accountId "Unknown Account"),
      jsGetD s.store.userInfoEmail "unknown",
      jsGetD ev.error "Account mismatch detected")
  if jsTruthy currentFileId || hasActiveSelectedImage s.store then
    let fileIdToSave := jsOr currentFileId s.store.selectedImage
    { s with
      store := { s.store with
        savedIntent := some ⟨some currentRoute, fileIdToSave, some "processing"⟩,
        images := [],
        selectedImage := none,
        status := "Account mismatch detected - previous data cleared",
        accountMismatchInfo := info,
        showAccountMismatchBanner := true },
      ls := if jsTruthy fileIdToSave then
          { s.ls with pendingFileId := fileIdToSave }
        else s.ls }
  else
    { s with
      store := { s.store with
        savedIntent := some ⟨none, none, some "selection"⟩,
        images := [],
        selectedImage := none,
        status := "Account mismatch detected - previous data cleared",
        accountMismatchInfo := info,
        showAccountMismatchBanner := true } }

/-- Embedding of the Layout's `handleFixAccountMismatch` (the single
action offered by the lockdown banner) at time `now`: hides the banner,
marks the re-authorization grace flags durably, preserves the in-flight
file id in `pending_file_id`, clears all authentication keys (but not the
saved intent, grace flags or pending file id), and navigates to the login
page. -/
def handleFixAccountMismatch (s : ClientState) (now : Int) : ClientState :=
  let currentFileId := jsOr s.store.directFileId (processRouteFileId s.route)
  let fileIdToPreserve := jsOr currentFileId s.store.selectedImage
  let ls1 := { s.ls with
    recentlyReauthorized := some "true",
    lastReauthorizationTime := some now }
  let ls2 :=
    if jsTruthy currentFileId || hasActiveSelectedImage s.store then
      { ls1 with pendingFileId := fileIdToPreserve }
    else ls1
  { route := "/login",
    store := { s.store with
      showAccountMismatchBanner := false,
      recentlyReauthorized := true,
      lastReauthorizationTime := now,
      images := [],
      selectedImage := none,
      status := "" },
    ls := { ls2 with
      accessToken := none,
      refreshToken := none,
      userId := none,
      userInfo := none,
      tokenExpiresAt := none,
      directFileIdOauth := none } }

/-- A full `window.location.href` navigation: the in-memory store is
reinitialized to its defaults, localStorage persists, and the browser
lands on `route`. -/
def pageReload (s : ClientState) (route : String) : ClientState :=
  { route := route, store := {}, ls := s.ls }

/-- The success path of `handleOAuthCallback` after the token exchange at
time `now`: stores the token pair with expiry, marks the grace period in
the store and localStorage, then navigates to `/process/<pending file>`
when a `pending_file_id` was preserved across the re-authentication
(consuming the key), else to the direct-file OAuth target, else to the
selection page. -/
def handleOAuthCallbackSuccess (s : ClientState)
    (userId userInfoEmail accessToken : String) (refreshToken : Option String)
    (now : Int) : ClientState :=
  let ls1 := { s.ls with
    accessToken := some accessToken,
    tokenExpiresAt := some (storeTokenWithExpiration now 14400),
    userId := some userId,
    userInfo := some userInfoEmail,
    refreshToken := if refreshToken.isSome then refreshToken else s.ls.refreshToken,
    recentlyReauthorized := some "true",
    lastReauthorizationTime := some now }
  let store1 := { s.store with
    isAuthenticated := true,
    userInfoEmail := some userInfoEmail,
    recentlyReauthorized := true,
    lastReauthorizationTime := now }
  if jsTruthy s.ls.pendingFileId then
    { route := "/process/" ++ s.ls.pendingFileId.getD "",
      store := { store1 with directFileId := s.ls.pendingFileId },
      ls := { ls1 with pendingFileId := none } }
  else if jsTruthy s.ls.directFileIdOauth then
    { route := "/process/" ++ s.ls.directFileIdOauth.getD "",
      store := { store1 with directFileId := s.ls.directFileIdOauth },
      ls := { ls1 with directFileIdOauth := none } }
  else
    { route := "/select", store := store1, ls := ls1 }

end PicsartDropbox

namespace PicsartDropbox

/-! ## Theorems for claims C1, C2, C10 -/

/-- Claim C1: a request to a protected route whose bearer token probes to
account `A` while the `X-User-ID` header claims account `B ≠ A` is rejected
by `ensureValidToken` with HTTP 403 and `shouldReauth = true`, and the
downstream handler is never invoked (the decision is not `proceed`). -/
theorem C1_server_rejects_spoofed_claims
    (env : ServerEnv) (token A B : String)
    (hprobe : env.probe token = .ok A) (hne : B ≠ A) :
    (ensureValidToken env ⟨some token, some B⟩).decision =
      .reject 403 ⟨"Account mismatch detected", true, none⟩ ∧
    ∀ acct tok hdr,
      (ensureValidToken env ⟨some token, some B⟩).decision ≠ .proceed acct tok hdr := by
  have hne' : A ≠ B := fun h => hne h.symm
  constructor
  · simp [ensureValidToken, hprobe, hne']
  · intro acct tok hdr
    simp [ensureValidToken, hprobe, hne']

/-- Witness for C1 at a concrete input: token `tokA` probes to account
`acctA`, the request claims `acctB`. -/
theorem C1_server_rejects_spoofed_claims_witness :
    (ensureValidToken
        ⟨fun _ => .ok "acctA", none, fun _ => .err "unused"⟩
        ⟨some "tokA", some "acctB"⟩).decision =
      .reject 403 ⟨"Account mismatch detected", true, none⟩ :=
  (C1_server_rejects_spoofed_claims
    ⟨fun _ => .ok "acctA", none, fun _ => .err "unused"⟩
    "tokA" "acctA" "acctB" rfl (by decide)).1

/-- Claim C2: when the initial probe of the presented token fails and the
refresh using the stored refresh token succeeds, `ensureValidToken`
proceeds with `req.currentAccountId` set to the claimed `X-User-ID` value,
and the refreshed token is never probed: the probe trace contains only the
originally presented token. -/
theorem C2_refresh_path_skips_identity_probe
    (env : ServerEnv) (token userId rt newAccess newRefresh : String)
    (hprobe : env.probe token = .err)
    (hrt : env.storedRefreshToken = some rt)
    (hrefresh : env.refresh rt = .ok newAccess newRefresh) :
    (ensureValidToken env ⟨some token, some userId⟩).decision =
      .proceed userId newAccess (some newAccess) ∧
    (ensureValidToken env ⟨some token, some userId⟩).probedTokens = [token] ∧
    (newAccess ≠ token →
      newAccess ∉ (ensureValidToken env ⟨some token, some userId⟩).probedTokens) := by
  refine ⟨?_, ?_, ?_⟩
  · simp [ensureValidToken, hprobe, hrt, hrefresh]
  · simp [ensureValidToken, hprobe, hrt, hrefresh]
  · intro hne
    simp [ensureValidToken, hprobe, hrt, hrefresh, hne]

/-- Witness for C2 at a concrete input: the stale token `oldTok` fails the
probe, the stored refresh token `rt` refreshes to `newTok`, and the request
proceeds as user `claimedUser` without probing `newTok`. -/
theorem C2_refresh_path_skips_identity_probe_witness :
    (ensureValidToken
        ⟨fun _ => .err, some "rt", fun _ => .ok "newTok" "newRt"⟩
        ⟨some "oldTok", some "claimedUser"⟩).decision =
      .proceed "claimedUser" "newTok" (some "newTok") ∧
    "newTok" ∉ (ensureValidToken
        ⟨fun _ => .err, some "rt", fun _ => .ok "newTok" "newRt"⟩
        ⟨some "oldTok", some "claimedUser"⟩).probedTokens := by
  have h := C2_refresh_path_skips_identity_probe
    ⟨fun _ => .err, some "rt", fun _ => .ok "newTok" "newRt"⟩
    "oldTok" "claimedUser" "rt" "newTok" "newRt" rfl rfl rfl
  exact ⟨h.1, h.2.2 (by decide)⟩

/-- Claim C10 counterexample: with a token stored at `t0 = 0` carrying a
provider lifetime of 14400 s (true expiry 14400000 ms), the check at
`now = 13900000` ms — between 5 and 10 minutes before true expiry —
returns `true`, although the claimed boundary `now ≥ t0 + expiresIn·1000 −
5 min` does not hold there.  The 5-minute margin is applied twice: once
when storing (`storeTokenWithExpiration` records expiry 300 s early) and
once when checking. -/
theorem C10_expiry_margin_counterexample :
    isTokenExpiredOrExpiring (some (storeTokenWithExpiration 0 14400)) 13900000 = true ∧
    ¬ ((13900000 : Int) ≥ 0 + 14400 * 1000 - 5 * 60 * 1000) := by
  constructor
  · decide
  · decide

/-- Claim C3: for `validateBeforeOperation('USER_OPERATION')` with the
re-authentication marked (`recentlyReauthorized` set and a recorded,
non-zero re-authorization time) and strictly less than 5 minutes elapsed,
the call returns `true` and performs no network probe; once 5 minutes or
more have elapsed (and credentials exist to probe), a real probe of the
current account is performed. -/
theorem C3_grace_period_suppression
    (flags : GraceFlags) (now : Int) (creds : Option HookCreds)
    (probe : String → ClientProbe)
    (hmark : flags.recentlyReauthorized = true)
    (htime : flags.lastReauthorizationTime ≠ 0) :
    (now - flags.lastReauthorizationTime < GRACE_PERIOD →
      validateBeforeOperation .USER_OPERATION flags now creds probe =
        ⟨true, false, flags⟩) ∧
    (GRACE_PERIOD ≤ now - flags.lastReauthorizationTime → creds.isSome = true →
      (validateBeforeOperation .USER_OPERATION flags now creds probe).probePerformed
        = true) := by
  constructor
  · intro hlt
    simp [validateBeforeOperation, hmark, htime, hlt]
  · intro hge hcreds
    have hnlt : ¬ (now - flags.lastReauthorizationTime < GRACE_PERIOD) := by omega
    match creds, hcreds with
    | some c, _ =>
      simp only [validateBeforeOperation, hmark, htime, hnlt]
      simp [hookValidateCurrentAccount]
      cases probe c.accessToken <;> simp <;> split <;> rfl

/-- Witness for C3 at concrete inputs: with the grace period started at
time 1000, a `USER_OPERATION` at time 2000 is allowed without a probe, and
one at time 1000 + 6 minutes performs a probe. -/
theorem C3_grace_period_suppression_witness :
    validateBeforeOperation .USER_OPERATION ⟨true, 1000⟩ 2000
        (some ⟨"tok", "uid"⟩) (fun _ => .ok "uid" "e" "n") =
      ⟨true, false, ⟨true, 1000⟩⟩ ∧
    (validateBeforeOperation .USER_OPERATION ⟨true, 1000⟩ (1000 + 6 * 60 * 1000)
        (some ⟨"tok", "uid"⟩) (fun _ => .ok "uid" "e" "n")).probePerformed = true := by
  have h := C3_grace_period_suppression ⟨true, 1000⟩ 2000
    (some ⟨"tok", "uid"⟩) (fun _ => .ok "uid" "e" "n") rfl (by decide)
  have h' := C3_grace_period_suppression ⟨true, 1000⟩ (1000 + 6 * 60 * 1000)
    (some ⟨"tok", "uid"⟩) (fun _ => .ok "uid" "e" "n") rfl (by decide)
  exact ⟨h.1 (by decide), h'.2 (by decide) rfl⟩

/-- Claim C4: in every run of `validateSessionConsistency` in which the
identity check passes but a functional probe (the folder listing, or the
space-usage call after a successful listing) fails with any error, the
returned verdict has `isValid = false`: identity pass plus functional fail
never yields a valid verdict. -/
theorem C4_identity_pass_functional_fail_invalid
    (ls : StoredCreds) (probe : String → ClientProbe)
    (listFolder spaceUsage : ApiCall)
    (hid : (validateCurrentAccount ls probe).isValid = true)
    (hfail : (∃ m, listFolder = .err m) ∨
      (listFolder = .ok ∧ ∃ m, spaceUsage = .err m)) :
    (validateSessionConsistency ls probe listFolder spaceUsage).isValid = false := by
  match hls : ls.accessToken, hls' : ls.userId with
  | some tok, some uid =>
    rcases hfail with ⟨m, hm⟩ | ⟨hok, m, hm⟩ <;>
      · subst hm
        try subst hok
        simp only [validateSessionConsistency, hls, hls', hid]
        simp
        try split <;> rfl
  | none, _ =>
    exfalso
    simp [validateCurrentAccount, hls] at hid
  | some tok, none =>
    exfalso
    simp [validateCurrentAccount, hls, hls'] at hid

/-- Witness for C4 at a concrete input: the probe confirms the stored
account `uid`, the folder listing succeeds, and the space-usage call fails
with a rate-limit error; the verdict is invalid. -/
theorem C4_identity_pass_functional_fail_invalid_witness :
    (validateCurrentAccount ⟨some "tok", some "uid"⟩
        (fun _ => .ok "uid" "e" "n")).isValid = true ∧
    (validateSessionConsistency ⟨some "tok", some "uid"⟩
        (fun _ => .ok "uid" "e" "n") .ok (.err "rate limited")).isValid = false := by
  refine ⟨by decide, ?_⟩
  exact C4_identity_pass_functional_fail_invalid ⟨some "tok", some "uid"⟩
    (fun _ => .ok "uid" "e" "n") .ok (.err "rate limited") (by decide)
    (Or.inr ⟨rfl, "rate limited", rfl⟩)

/-- Claim C5 counterexample: a validation probe that fails because the
provider is unreachable (here a network timeout) IS treated as a mismatch
trigger by the client validators: `triggerImmediateAccountValidation`
dispatches an `accountMismatch` event from its catch path, and
`triggerComprehensiveAccountCheck` dispatches an `accountMismatch` event
with `confirmed = true`, contrary to the claim that no mismatch signal is
raised from such a failure. -/
theorem C5_unreachable_raises_mismatch_counterexample :
    (triggerImmediateAccountValidation true ⟨none, none⟩ 0 (some "tok")
        (some "uid") (fun _ => .err "network timeout")).events =
      [⟨"Validation failed", "unknown", "network timeout",
        "immediate-validation-error", none⟩] ∧
    (triggerComprehensiveAccountCheck (some "tok") (some "uid")
        (some "user@example.com") (fun _ => .err "network timeout")).2 =
      [⟨"Unknown", "Unknown", "Account info fetch failed: network timeout",
        "comprehensive-check", some true⟩] := by
  constructor <;> rfl

/-- Claim C5 (amended): a validation probe that fails because the provider
is unreachable does raise mismatch signals: the immediate validator
dispatches an `accountMismatch` event with source
`immediate-validation-error` and no `confirmed` field, and the
comprehensive check dispatches one with `confirmed = true`; only
`validateCurrentAccount` itself reports such a failure as a plain token
validation failure — with `shouldReauth` set but without the
`sessionMismatch` mark — and none of the validators clears the stored
session themselves. -/
theorem C5_unreachable_provider_amended
    (tok uid email0 msg : String) (probe : String → ClientProbe)
    (hprobe : probe tok = .err msg) (hmsg : msg ≠ "") :
    (triggerImmediateAccountValidation true ⟨none, none⟩ 0 (some tok)
        (some uid) probe).events =
      [⟨"Validation failed", "unknown", msg, "immediate-validation-error", none⟩] ∧
    (triggerComprehensiveAccountCheck (some tok) (some uid) (some email0) probe).2 =
      [⟨"Unknown", "Unknown", "Account info fetch failed: " ++ msg,
        "comprehensive-check", some true⟩] ∧
    (validateCurrentAccount ⟨some tok, some uid⟩ probe).sessionMismatch = none ∧
    (validateCurrentAccount ⟨some tok, some uid⟩ probe).shouldReauth = some true := by
  refine ⟨?_, ?_, ?_, ?_⟩ <;>
    simp [triggerImmediateAccountValidation, immediateCheckCore,
      triggerComprehensiveAccountCheck, performComprehensiveAccountCheck,
      validateCurrentAccount, joinSep, hprobe, hmsg]

/-- Witness for C5 (amended) at a concrete input: the probe times out. -/
theorem C5_unreachable_provider_amended_witness :
    (triggerImmediateAccountValidation true ⟨none, none⟩ 0 (some "t")
        (some "u") (fun _ => .err "timeout of 8000ms exceeded")).events =
      [⟨"Validation failed", "unknown", "timeout of 8000ms exceeded",
        "immediate-validation-error", none⟩] ∧
    (validateCurrentAccount ⟨some "t", some "u"⟩
        (fun _ => .err "timeout of 8000ms exceeded")).sessionMismatch = none := by
  have h := C5_unreachable_provider_amended "t" "u" "e" "timeout of 8000ms exceeded"
    (fun _ => .err "timeout of 8000ms exceeded") rfl (by decide)
  exact ⟨h.1, h.2.2.1⟩

/-- Helper: an ambiguous 4xx response leaves the interceptor state
unchanged and dispatches nothing. -/
theorem interceptResponse_ambiguous (c : Nat) (r : FetchResponse)
    (h : ambiguous4xx r) : interceptResponse c r = (c, []) := by
  obtain ⟨h1, h2, h3⟩ := h
  have hok : r.respOk = false := by
    have hlt : ¬ (r.status < 300) := by omega
    simp [FetchResponse.respOk, hlt]
  unfold interceptResponse
  by_cases h409 : r.status = 409
  · cases hs : r.errorSummary with
    | none => simp [h409, hs]
    | some s =>
      have hni : strIncludes s "path/not_found" = false := by
        by_contra hc
        rw [Bool.not_eq_false] at hc
        exact h3 ⟨h409, s, hs, hc⟩
      simp [h409, hs, hni]
  · simp [h409, hok]

/-- Claim C9: the error-burst counter of the fetch interceptor is reset
to zero by any successful response, and the sequence of two consecutive
ambiguous 4xx responses, then one successful response, then one more
ambiguous 4xx response does not cross the threshold of 2 and emits no
mismatch signal (the run dispatches no event and ends with the counter at
zero). -/
theorem C9_burst_counter_reset :
    (∀ (c : Nat) (r : FetchResponse), r.respOk = true →
      (interceptResponse c r).1 = 0) ∧
    (∀ r1 r2 r3 rok : FetchResponse,
      ambiguous4xx r1 → ambiguous4xx r2 → ambiguous4xx r3 →
      rok.respOk = true →
      runInterceptor 0 [r1, r2, rok, r3] = (0, [])) := by
  have hreset : ∀ (c : Nat) (r : FetchResponse), r.respOk = true →
      interceptResponse c r = (0, []) := by
    intro c r h
    have h409 : r.status ≠ 409 := by
      simp only [FetchResponse.respOk, Bool.and_eq_true, decide_eq_true_eq] at h
      omega
    simp [interceptResponse, h409, h]
  constructor
  · intro c r h
    rw [hreset c r h]
  · intro r1 r2 r3 rok h1 h2 h3 hok
    simp [runInterceptor, interceptResponse_ambiguous _ _ h1,
      interceptResponse_ambiguous _ _ h2, interceptResponse_ambiguous _ _ h3,
      hreset _ _ hok]

/-- Witness for C9 at concrete inputs: a 400, a non-cross-account 409 and
a 404 are ambiguous; a 200 resets a counter of 5 and the four-response
sequence dispatches nothing. -/
theorem C9_burst_counter_reset_witness :
    (interceptResponse 5 ⟨200, none⟩).1 = 0 ∧
    runInterceptor 0
      [⟨400, none⟩, ⟨409, some "too_many_write_operations/..."⟩,
        ⟨200, none⟩, ⟨404, none⟩] = (0, []) := by
  have amb1 : ambiguous4xx ⟨400, none⟩ := by
    refine ⟨by norm_num, by norm_num, ?_⟩
    rintro ⟨h, -⟩
    simp at h
  have amb2 : ambiguous4xx ⟨409, some "too_many_write_operations/..."⟩ := by
    refine ⟨by norm_num, by norm_num, ?_⟩
    rintro ⟨-, s, hs, hinc⟩
    simp only [Option.some.injEq] at hs
    subst hs
    revert hinc
    decide
  have amb3 : ambiguous4xx ⟨404, none⟩ := by
    refine ⟨by norm_num, by norm_num, ?_⟩
    rintro ⟨h, -⟩
    simp at h
  exact ⟨C9_burst_counter_reset.1 5 ⟨200, none⟩ rfl,
    C9_burst_counter_reset.2 _ _ _ _ amb1 amb2 amb3 rfl⟩

/-- Claim C6: a user processing file `F` on route `/process/F` who hits a
confirmed mismatch, clicks the fix action (which re-authenticates via a
full page navigation), and completes the OAuth exchange is navigated back
to `/process/F` — the route referencing `F` — and the Saved Intent is
empty afterward (the in-memory intent was consumed by the reload and the
durable `pending_file_id` key is consumed by the OAuth callback). -/
theorem C6_intent_round_trip (F tok uid email newTok : String) (hF : F ≠ "")
    (hclean : processRouteFileId ("/process/" ++ F) = some F) :
    let s0 : ClientState :=
      ⟨"/process/" ++ F,
        { isAuthenticated := true, userInfoEmail := some email },
        { accessToken := some tok, userId := some uid, userInfo := some email }⟩
    let s3 := handleOAuthCallbackSuccess
      (pageReload
        (handleFixAccountMismatch
          (handleAccountMismatch s0
            ⟨some "other@example.com", some "acct2", none,
              some "immediate-validation"⟩)
          1000)
        "/login")
      uid email newTok none 2000
    s3.route = "/process/" ++ F ∧ s3.store.savedIntent = none ∧
      s3.ls.pendingFileId = none := by
  simp [handleAccountMismatch, handleFixAccountMismatch, pageReload,
    handleOAuthCallbackSuccess, hclean, hF, jsOr, jsTruthy,
    hasActiveSelectedImage, jsGetD]

/-- Witness for C6 at a concrete input: file `file42`. -/
theorem C6_intent_round_trip_witness :
    (handleOAuthCallbackSuccess
      (pageReload
        (handleFixAccountMismatch
          (handleAccountMismatch
            ⟨"/process/file42",
              { isAuthenticated := true, userInfoEmail := some "a@b" },
              { accessToken := some "tk", userId := some "u1",
                userInfo := some "a@b" }⟩
            ⟨some "other@example.com", some "acct2", none,
              some "immediate-validation"⟩)
          1000)
        "/login")
      "u1" "a@b" "tk2" none 2000).route = "/process/file42" := by
  have h := C6_intent_round_trip "file42" "tk" "u1" "a@b" "tk2" (by decide) (by rfl)
  exact h.1

/-- Helper: `a || b` in JavaScript keeps a truthy `a`. -/
theorem jsOr_of_truthy (a b : Option String) (h : jsTruthy a = true) :
    jsOr a b = a := by
  simp [jsOr, h]

/-- Helper: when the in-flight file is identified by `directFileId` or the
route itself, re-running the mismatch handler re-captures the identical
intent, so a second trigger is a no-op. -/
theorem handleAccountMismatch_idem_of_truthy (s : ClientState)
    (ev : MismatchPayload)
    (h : jsTruthy (jsOr s.store.directFileId (processRouteFileId s.route)) = true) :
    handleAccountMismatch (handleAccountMismatch s ev) ev =
      handleAccountMismatch s ev := by
  simp only [handleAccountMismatch]
  simp [h, jsOr_of_truthy _ _ h, hasActiveSelectedImage]

/-- Helper: with no in-flight context at all (no route or direct file id,
no active selected image) both triggers capture the bare selection intent,
so a second trigger is again a no-op. -/
theorem handleAccountMismatch_idem_of_noSel (s : ClientState)
    (ev : MismatchPayload)
    (hcf : jsTruthy (jsOr s.store.directFileId (processRouteFileId s.route)) = false)
    (hsel : hasActiveSelectedImage s.store = false) :
    handleAccountMismatch (handleAccountMismatch s ev) ev =
      handleAccountMismatch s ev := by
  cases hs : s.store.selectedImage with
  | none =>
    simp only [handleAccountMismatch, hasActiveSelectedImage]
    simp [hcf, hs]
  | some id =>
    have hid : id = "unknown" := by
      simp only [hasActiveSelectedImage, hs] at hsel
      simpa using hsel
    subst hid
    simp only [handleAccountMismatch, hasActiveSelectedImage]
    simp [hcf, hs]

/-- Claim C7 counterexample: with the in-flight context carried only by
the selected image (route `/select`, no direct file id), the first
mismatch event captures the processing intent for `img1` and clears the
selection, so a second event for the same cause is NOT a no-op: it
overwrites the captured intent with a bare selection intent. -/
theorem C7_second_trigger_overwrites_intent_counterexample :
    (handleAccountMismatch
        ⟨"/select", { selectedImage := some "img1" }, {}⟩
        ⟨some "x@y", some "a2", none, some "comprehensive-check"⟩).store.savedIntent =
      some ⟨some "/select", some "img1", some "processing"⟩ ∧
    (handleAccountMismatch
      (handleAccountMismatch
        ⟨"/select", { selectedImage := some "img1" }, {}⟩
        ⟨some "x@y", some "a2", none, some "comprehensive-check"⟩)
      ⟨some "x@y", some "a2", none, some "comprehensive-check"⟩).store.savedIntent =
      some ⟨none, none, some "selection"⟩ ∧
    (handleAccountMismatch
      (handleAccountMismatch
        ⟨"/select", { selectedImage := some "img1" }, {}⟩
        ⟨some "x@y", some "a2", none, some "comprehensive-check"⟩)
      ⟨some "x@y", some "a2", none, some "comprehensive-check"⟩).store.savedIntent ≠
      (handleAccountMismatch
        ⟨"/select", { selectedImage := some "img1" }, {}⟩
        ⟨some "x@y", some "a2", none, some "comprehensive-check"⟩).store.savedIntent := by
  refine ⟨rfl, rfl, ?_⟩
  decide

/-- Claim C7 (amended): a second mismatch trigger while one is already
being handled is a no-op — the state, including the captured Saved Intent,
is unchanged — whenever the in-flight file is identified by the route or
`directFileId`, and likewise when there is no in-flight context at all;
the lockdown UI is a single boolean banner, so at most one lockdown is
shown in every case.  The exception established by the counterexample
remains: when the intent is carried only by the selected image, the second
trigger overwrites it with a bare selection intent. -/
theorem C7_second_trigger_amended (s : ClientState) (ev : MismatchPayload)
    (h : jsTruthy (jsOr s.store.directFileId (processRouteFileId s.route)) = true ∨
      hasActiveSelectedImage s.store = false) :
    handleAccountMismatch (handleAccountMismatch s ev) ev =
      handleAccountMismatch s ev ∧
    (handleAccountMismatch s ev).store.showAccountMismatchBanner = true := by
  constructor
  · by_cases hcf :
      jsTruthy (jsOr s.store.directFileId (processRouteFileId s.route)) = true
    · exact handleAccountMismatch_idem_of_truthy s ev hcf
    · rcases h with h | h
      · exact absurd h hcf
      · exact handleAccountMismatch_idem_of_noSel s ev
          (Bool.not_eq_true _ ▸ hcf) h
  · simp only [handleAccountMismatch]
    split <;> rfl

/-- Witness for C7 (amended) on a `/process/F` route. -/
theorem C7_second_trigger_amended_witness :
    handleAccountMismatch
      (handleAccountMismatch
        ⟨"/process/f9", { userInfoEmail := some "a@b" },
          { accessToken := some "tk" }⟩
        ⟨some "x@y", some "a2", none, some "immediate-validation"⟩)
      ⟨some "x@y", some "a2", none, some "immediate-validation"⟩ =
      handleAccountMismatch
        ⟨"/process/f9", { userInfoEmail := some "a@b" },
          { accessToken := some "tk" }⟩
        ⟨some "x@y", some "a2", none, some "immediate-validation"⟩ :=
  (C7_second_trigger_amended
    ⟨"/process/f9", { userInfoEmail := some "a@b" }, { accessToken := some "tk" }⟩
    ⟨some "x@y", some "a2", none, some "immediate-validation"⟩
    (Or.inl (by decide))).1

/-- Claim C8 counterexample: a refresh call failing with an explicit
`invalid_grant` response is retried, contrary to the claim that it is
"never retried": `authApi.refreshToken` resolves to `null` on any
server-reported failure, so the initialization loop cannot distinguish
`invalid_grant` from a transient failure and makes all 3 attempts before
clearing the session (rather than marking it terminal immediately after
the first response). -/
theorem C8_invalid_grant_retried_counterexample :
    (initRefreshLoop (fun _ => .nullResult) true true).attemptsMade = 3 ∧
    (initRefreshLoop (fun _ => .nullResult) true true).action = .clearAuth := by
  constructor
  · rfl
  · rfl

/-- Claim C8 (amended): a refresh call that fails with a network timeout is
retried up to the 3-attempt bound with linear backoff (1 s then 2 s) and,
with the server unreachable and user info stored, does not clear the
session (the credentials are kept in a limited state).  The server
middleware makes at most one refresh call per request, and an
`invalid_grant` refresh failure is terminal there without retry: HTTP 401
with reason `refresh_token_expired` after exactly one refresh call.  The
client loop, unable to distinguish failure causes, also retries an
`invalid_grant` failure up to the same bound and clears the session only
after the final attempt. -/
theorem C8_refresh_failure_policy_amended
    (env : ServerEnv) (token userId rt msg : String)
    (hprobe : env.probe token = .err)
    (hrt : env.storedRefreshToken = some rt)
    (hrefresh : env.refresh rt = .err msg)
    (hmsg : strIncludes msg "invalid_grant" = true) :
    initRefreshLoop (fun _ => .timeout) false true = ⟨.keepLimited, 3, [1000, 2000]⟩ ∧
    initRefreshLoop (fun _ => .nullResult) true true = ⟨.clearAuth, 3, []⟩ ∧
    (ensureValidToken env ⟨some token, some userId⟩).decision =
      .reject 401 ⟨"Refresh token expired", true, some "refresh_token_expired"⟩ ∧
    (ensureValidToken env ⟨some token, some userId⟩).refreshCalls = 1 := by
  refine ⟨rfl, rfl, ?_, ?_⟩
  · simp [ensureValidToken, hprobe, hrt, hrefresh, isRefreshTokenExpiredMsg, hmsg]
  · simp only [ensureValidToken, hprobe, hrt, hrefresh]
    split <;> rfl

/-- Witness for C8 (amended) at a concrete input: the stored refresh token
fails with the literal message `invalid_grant`. -/
theorem C8_refresh_failure_policy_amended_witness :
    (ensureValidToken
        ⟨fun _ => .err, some "rt", fun _ => .err "invalid_grant"⟩
        ⟨some "tok", some "uid"⟩).decision =
      .reject 401 ⟨"Refresh token expired", true, some "refresh_token_expired"⟩ :=
  (C8_refresh_failure_policy_amended
    ⟨fun _ => .err, some "rt", fun _ => .err "invalid_grant"⟩
    "tok" "uid" "rt" "invalid_grant" rfl rfl rfl (by decide)).2.2.1

/-- Claim C10 (amended): for a token stored with provider lifetime
`expiresIn` seconds at time `t0`, `isTokenExpiredOrExpiring` returns `true`
at time `now` if and only if `now ≥ (t0 + expiresIn·1000) − 600000` ms,
i.e. the effective proactive-refresh margin is 10 minutes before the true
provider-reported expiry (a 5-minute buffer subtracted at storage time plus
a 5-minute look-ahead at check time), never exactly at expiry. -/
theorem C10_expiry_margin_amended (t0 expiresIn now : Int) :
    isTokenExpiredOrExpiring (some (storeTokenWithExpiration t0 expiresIn)) now = true ↔
    now ≥ t0 + expiresIn * 1000 - 600000 := by
  simp only [isTokenExpiredOrExpiring, storeTokenWithExpiration, decide_eq_true_eq]
  omega

end PicsartDropbox
